import Mathlib

/-!
Verification development for the faasify backend: serverless HTTP handlers
(auth, storefronts, items, orders, reviews) over a DynamoDB document store.

Each handler is embedded as a pure Lean function from the request inputs, the
table states, and an explicit failure schedule (which DynamoDB commands throw)
to a response record carrying the status code and the resulting table states.
JavaScript numeric coercions relevant to validation (NaN comparisons,
parseInt/parseFloat) are modelled by the JVal type and its operations.
-/

namespace Faasify

/-- Model of the JavaScript values that flow through request bodies and stored
records in these handlers: undefined, NaN, finite numbers (as rationals),
strings, and booleans. -/
inductive JVal where
  | undef
  | nan
  | num (q : ℚ)
  | str (s : String)
  | bool (b : Bool)
deriving Repr, DecidableEq

/-- Digits-to-value accumulator used by the decimal parsers. -/
def digitsToNat (cs : List Char) : Nat :=
  cs.foldl (fun n c => 10 * n + (c.toNat - 48)) 0

/-- Split a character list into its leading run of decimal digits and the rest. -/
def takeDigits (cs : List Char) : List Char × List Char :=
  (cs.takeWhile Char.isDigit, cs.dropWhile Char.isDigit)

/-- Parse an optionally signed decimal literal (integer part, optional fraction)
from the front of a character list, returning the value and the unconsumed
remainder; fails when no digit is present.  Exponent notation is not modelled
(no input in this development uses it). -/
def parseDec (cs : List Char) : Option ℚ × List Char :=
  let (sign, cs1) : ℚ × List Char :=
    match cs with
    | '-' :: rest => (-1, rest)
    | '+' :: rest => (1, rest)
    | _ => (1, cs)
  let (intPart, cs2) := takeDigits cs1
  let (fracPart, cs3) :=
    match cs2 with
    | '.' :: rest => takeDigits rest
    | _ => ([], cs2)
  if intPart.isEmpty && fracPart.isEmpty then
    (none, cs)
  else
    let ip : ℚ := (digitsToNat intPart : ℚ)
    let fp : ℚ := (digitsToNat fracPart : ℚ) / ((10 : ℚ) ^ fracPart.length)
    (some (sign * (ip + fp)), cs3)

/-- JavaScript `String.prototype.trim`: strip leading and trailing
whitespace (defined over the character list so it evaluates in the kernel). -/
def jsTrim (s : String) : String :=
  String.mk (((s.data.dropWhile Char.isWhitespace).reverse.dropWhile
    Char.isWhitespace).reverse)

/-- JavaScript ToNumber coercion of a string (used by relational operators):
whitespace-trimmed, empty string is 0, otherwise the whole remainder must be a
decimal literal; anything else is NaN (`none`). -/
def jsStrToNumber (s : String) : Option ℚ :=
  let t := (jsTrim s).data
  if t.isEmpty then some 0
  else
    match parseDec t with
    | (some q, []) => some q
    | _ => none

/-- JavaScript ToNumber coercion on a JVal; the result is `.num q` or `.nan`. -/
def jsToNumber : JVal → JVal
  | JVal.num q => JVal.num q
  | JVal.nan => JVal.nan
  | JVal.undef => JVal.nan
  | JVal.bool b => JVal.num (if b then 1 else 0)
  | JVal.str s =>
    match jsStrToNumber s with
    | some q => JVal.num q
    | none => JVal.nan

/-- JavaScript relational `<` after ToNumber coercion of both operands; any NaN
operand makes the comparison false.  (The string-vs-string lexicographic case
does not arise at the embedded call sites, which always compare against a
numeric literal.) -/
def jsLT (a b : JVal) : Bool :=
  match jsToNumber a, jsToNumber b with
  | JVal.num x, JVal.num y => decide (x < y)
  | _, _ => false

/-- JavaScript relational `<=` after ToNumber coercion of both operands; any
NaN operand makes the comparison false. -/
def jsLE (a b : JVal) : Bool :=
  match jsToNumber a, jsToNumber b with
  | JVal.num x, JVal.num y => decide (x ≤ y)
  | _, _ => false

/-- Truncation of a rational toward zero (numerator T-divided by denominator),
as taken by JavaScript `parseInt` on the decimal rendering of a finite
number. -/
def ratTrunc (q : ℚ) : Int :=
  q.num.tdiv q.den

/-- JavaScript `parseInt` on a string: skip leading whitespace, optional sign,
then the leading digit run; no digits means NaN (`none`). -/
def parseIntStr (s : String) : Option Int :=
  let cs := s.data.dropWhile Char.isWhitespace
  let (sign, cs1) : Int × List Char :=
    match cs with
    | '-' :: rest => (-1, rest)
    | '+' :: rest => (1, rest)
    | _ => (1, cs)
  let (ds, _) := takeDigits cs1
  if ds.isEmpty then none else some (sign * (digitsToNat ds : Int))

/-- JavaScript `parseInt(v)`: the argument is first converted to a string, so a
finite number is truncated toward zero (decimal rendering assumed, as holds for
every value in range here), a non-numeric string gives NaN, and
undefined/NaN give NaN. -/
def jsParseInt : JVal → JVal
  | JVal.num q => JVal.num ((ratTrunc q : Int) : ℚ)
  | JVal.str s =>
    match parseIntStr s with
    | some i => JVal.num ((i : Int) : ℚ)
    | none => JVal.nan
  | _ => JVal.nan

/-- JavaScript `parseFloat(v)`: string rendering then longest decimal prefix;
a finite number round-trips, a string takes its decimal prefix, everything
else is NaN. -/
def jsParseFloat : JVal → JVal
  | JVal.num q => JVal.num q
  | JVal.str s =>
    match parseDec (s.data.dropWhile Char.isWhitespace) with
    | (some q, _) => JVal.num q
    | (none, _) => JVal.nan
  | _ => JVal.nan

/-- JavaScript `+` restricted to the numeric values that reach the rating
aggregation (numbers and NaN); NaN is absorbing. -/
def jsAdd (a b : JVal) : JVal :=
  match a, b with
  | JVal.num x, JVal.num y => JVal.num (x + y)
  | _, _ => JVal.nan

/-- Division of an accumulated JavaScript number by a (positive) length. -/
def jsDivNat (v : JVal) (n : Nat) : JVal :=
  match v with
  | JVal.num x => if n = 0 then JVal.nan else JVal.num (x / (n : ℚ))
  | _ => JVal.nan

/-- `Math.round(x * 10) / 10` on a JavaScript number: round half toward
positive infinity at one decimal place; NaN propagates. -/
def jsRound1 (v : JVal) : JVal :=
  match v with
  | JVal.num x => JVal.num (((⌊x * 10 + 1 / 2⌋ : Int) : ℚ) / 10)
  | _ => JVal.nan

/-- Lowercasing as performed by `String.prototype.toLowerCase` on the ASCII
emails these handlers handle. -/
def lowerStr (s : String) : String :=
  String.mk (s.data.map Char.toLower)

/-- JavaScript falsiness of an optional string body field: absent or empty. -/
def falsyStr : Option String → Bool
  | none => true
  | some s => s == ""

/-! ## Data model (table records, as built by the handlers) -/

/-- User record as written by handleRegister (functions/items/index.js,
lines 173-181). -/
structure UserRec where
  userId : String
  email : String
  name : String
  password : String
  role : String
  hasStorefront : Bool
  createdAt : String
deriving Repr, DecidableEq

/-- JWT claims as signed by handleRegister and handleLogin. -/
structure TokenPayload where
  userId : String
  email : String
  role : String
deriving Repr, DecidableEq

/-- Modelled external primitive (jsonwebtoken): a signed token is its payload
together with the signing secret; verification checks the secret and returns
the payload.  Expiry (the 7-day window) is not modelled. -/
structure SignedToken where
  payload : TokenPayload
  sig : String
deriving Repr, DecidableEq

def jwtSign (p : TokenPayload) (secret : String) : SignedToken :=
  ⟨p, secret⟩

def jwtVerify (t : SignedToken) (secret : String) : Option TokenPayload :=
  if t.sig == secret then some t.payload else none

/-- The JWT_SECRET environment value, opaque to the development. -/
def jwtSecret : String := "JWT_SECRET"

/-- Modelled external primitive (bcryptjs): a deterministic stand-in capturing
the contract compare(p, hash(q)) = (p = q); salting is not modelled. -/
def bcryptHash (password : String) : String :=
  "bcrypt$" ++ password

def bcryptCompare (password hash : String) : Bool :=
  bcryptHash password == hash

/-- Catalog item record as written by handleAddItem (items handler,
src/unnamed/part_000 lines 332-344). -/
structure ItemRec where
  id : String
  storeId : String
  name : String
  description : String
  price : ℚ
  category : String
  image : String
  averageRating : ℚ
  reviews : List String
  createdAt : String
  updatedAt : String
deriving Repr, DecidableEq

/-- Review record as written by handleCreateReview (src/unnamed/part_000
lines 656-664); the rating field keeps its JavaScript value because
parseInt can produce NaN. -/
structure ReviewRec where
  reviewId : String
  itemId : String
  userId : String
  rating : JVal
  comment : String
  createdAt : String
  updatedAt : String
deriving Repr, DecidableEq

/-- Order record as written by handleCreateOrder (src/unnamed/part_000
lines 206-215).  The line-item list is kept as opaque item-id references (no
claim in this development inspects order line items); total holds the
parseFloat result, which can be NaN. -/
structure OrderRec where
  orderId : String
  userId : String
  items : List String
  shippingAddress : String
  total : JVal
  status : String
  createdAt : String
  updatedAt : String
deriving Repr, DecidableEq

/-- Storefront record as written by handleCreateStorefront
(src/unnamed/part_000 lines 820-831). -/
structure StorefrontRec where
  storeId : String
  name : String
  description : String
  category : String
  image : String
  owner : String
  ownerName : String
  items : List String
  createdAt : String
  updatedAt : String
deriving Repr, DecidableEq

/-! ## DynamoDB primitives

A table is a list of records.  An index-backed QueryCommand with key condition
`attr = :v` returns every record of the table whose indexed attribute equals
the value; a ScanCommand with filter expression `attr = :v` returns every
record whose attribute equals the value. -/

/-- QueryCommand on a secondary index whose partition key is `attr`, with key
condition `attr = :v`. -/
def dynQueryEq {α : Type} (tbl : List α) (attr : α → String) (v : String) : List α :=
  tbl.filter (fun r => attr r == v)

/-- ScanCommand with filter expression `attr = :v`. -/
def dynScanFilterEq {α : Type} (tbl : List α) (attr : α → String) (v : String) : List α :=
  tbl.filter (fun r => attr r == v)

/-! ## Lookup call sites: the index path and the scan path of each findBy

Each pair of definitions is the translation of one try/catch in the source:
the QueryCommand inside the try, and the ScanCommand inside the catch. -/

/-- handleGetOrders index path: Query OrdersTable/UserIdIndex,
KeyConditionExpression userId = :userId (src/unnamed/part_000 lines 106-115). -/
def ordersIndexPath (tbl : List OrderRec) (uid : String) : List OrderRec :=
  dynQueryEq tbl OrderRec.userId uid

/-- handleGetOrders scan fallback: Scan OrdersTable,
FilterExpression userId = :userId (src/unnamed/part_000 lines 120-128). -/
def ordersScanPath (tbl : List OrderRec) (uid : String) : List OrderRec :=
  dynScanFilterEq tbl OrderRec.userId uid

/-- handleGetItems index path: Query ItemsTable/StoreIdIndex,
KeyConditionExpression storeId = :storeId (src/unnamed/part_000 lines 379-388). -/
def itemsIndexPath (tbl : List ItemRec) (sid : String) : List ItemRec :=
  dynQueryEq tbl ItemRec.storeId sid

/-- handleGetItems scan fallback: Scan ItemsTable,
FilterExpression storeId = :storeId (src/unnamed/part_000 lines 393-401). -/
def itemsScanPath (tbl : List ItemRec) (sid : String) : List ItemRec :=
  dynScanFilterEq tbl ItemRec.storeId sid

/-- handleGetReviews index path: Query ReviewsTable/ItemIdIndex,
KeyConditionExpression itemId = :itemId (src/unnamed/part_000 lines 532-541). -/
def reviewsIndexPath (tbl : List ReviewRec) (iid : String) : List ReviewRec :=
  dynQueryEq tbl ReviewRec.itemId iid

/-- handleGetReviews scan fallback: Scan ReviewsTable,
FilterExpression itemId = :itemId (src/unnamed/part_000 lines 546-554). -/
def reviewsScanPath (tbl : List ReviewRec) (iid : String) : List ReviewRec :=
  dynScanFilterEq tbl ReviewRec.itemId iid

/-- handleGetMyStorefronts index path: Query StorefrontsTable/OwnerIndex,
KeyConditionExpression #owner = :owner (src/unnamed/part_000 lines 912-924). -/
def storefrontsIndexPath (tbl : List StorefrontRec) (owner : String) : List StorefrontRec :=
  dynQueryEq tbl StorefrontRec.owner owner

/-- handleGetMyStorefronts scan fallback: Scan StorefrontsTable,
FilterExpression #owner = :owner (src/unnamed/part_000 lines 928-939). -/
def storefrontsScanPath (tbl : List StorefrontRec) (owner : String) : List StorefrontRec :=
  dynScanFilterEq tbl StorefrontRec.owner owner

/-- handleCreateReview duplicate-check index path: Query ReviewsTable/ItemIdIndex,
KeyConditionExpression itemId = :itemId with post-query FilterExpression
userId = :userId (src/unnamed/part_000 lines 622-633). -/
def reviewDupIndexPath (tbl : List ReviewRec) (iid uid : String) : List ReviewRec :=
  (dynQueryEq tbl ReviewRec.itemId iid).filter (fun r => r.userId == uid)

/-- handleCreateReview duplicate-check scan fallback: Scan ReviewsTable,
FilterExpression itemId = :itemId AND userId = :userId
(src/unnamed/part_000 lines 637-646). -/
def reviewDupScanPath (tbl : List ReviewRec) (iid uid : String) : List ReviewRec :=
  tbl.filter (fun r => r.itemId == iid && r.userId == uid)

/-! ## The index-to-scan fallback (the try/catch around each lookup)

Each fetch function takes the table, the key, and two failure flags saying
whether the QueryCommand and the ScanCommand throw; a thrown query falls back
to the scan, and a thrown scan propagates to the outer catch. -/

/-- handleGetOrders lookup with fallback (src/unnamed/part_000 lines 103-131). -/
def fetchOrdersByUser (tbl : List OrderRec) (uid : String)
    (idxFails scanFails : Bool) : Except Unit (List OrderRec) :=
  if idxFails then
    if scanFails then Except.error () else Except.ok (ordersScanPath tbl uid)
  else Except.ok (ordersIndexPath tbl uid)

/-- handleGetItems lookup with fallback (src/unnamed/part_000 lines 376-404). -/
def fetchItemsByStore (tbl : List ItemRec) (sid : String)
    (idxFails scanFails : Bool) : Except Unit (List ItemRec) :=
  if idxFails then
    if scanFails then Except.error () else Except.ok (itemsScanPath tbl sid)
  else Except.ok (itemsIndexPath tbl sid)

/-- handleGetReviews lookup with fallback (src/unnamed/part_000 lines 529-557). -/
def fetchReviewsByItem (tbl : List ReviewRec) (iid : String)
    (idxFails scanFails : Bool) : Except Unit (List ReviewRec) :=
  if idxFails then
    if scanFails then Except.error () else Except.ok (reviewsScanPath tbl iid)
  else Except.ok (reviewsIndexPath tbl iid)

/-- handleGetMyStorefronts lookup with fallback
(src/unnamed/part_000 lines 910-941). -/
def fetchStorefrontsByOwner (tbl : List StorefrontRec) (owner : String)
    (idxFails scanFails : Bool) : Except Unit (List StorefrontRec) :=
  if idxFails then
    if scanFails then Except.error () else Except.ok (storefrontsScanPath tbl owner)
  else Except.ok (storefrontsIndexPath tbl owner)

/-- handleCreateReview duplicate-check lookup with fallback
(src/unnamed/part_000 lines 620-648): the indexed query inside the try, the
equivalent scan inside the catch; a thrown scan propagates to the outer
catch. -/
def fetchReviewDup (tbl : List ReviewRec) (iid uid : String)
    (idxFails scanFails : Bool) : Except Unit (List ReviewRec) :=
  if idxFails then
    if scanFails then Except.error () else Except.ok (reviewDupScanPath tbl iid uid)
  else Except.ok (reviewDupIndexPath tbl iid uid)

/-! ## Response user objects (JavaScript objects as field lists)

handleRegister and handleLogin return the user object with the password field
removed by rest-destructuring; that object is modelled as an association list
so that field absence is a provable property. -/

/-- The JavaScript user object literal of handleRegister
(functions/items/index.js lines 173-181), as a field list. -/
def userToObj (u : UserRec) : List (String × JVal) :=
  [("userId", JVal.str u.userId), ("email", JVal.str u.email),
   ("name", JVal.str u.name), ("password", JVal.str u.password),
   ("role", JVal.str u.role), ("hasStorefront", JVal.bool u.hasStorefront),
   ("createdAt", JVal.str u.createdAt)]

/-- Rest-destructuring that omits one key:
const \x7b password: _, ...userWithoutPassword \x7d = user. -/
def omitField (k : String) (fs : List (String × JVal)) : List (String × JVal) :=
  fs.filter (fun p => p.1 != k)

/-- Property access on a modelled JavaScript object. -/
def lookupField (k : String) (fs : List (String × JVal)) : Option JVal :=
  (fs.find? (fun p => p.1 == k)).map Prod.snd

/-! ## Auth handlers (functions/items/index.js, second document) -/

structure RegisterBody where
  name : Option String
  email : Option String
  password : Option String
  role : Option String
deriving Repr, DecidableEq

structure RegisterOut where
  status : Nat
  userFields : List (String × JVal)
  token : Option SignedToken
  users : List UserRec
deriving Repr, DecidableEq

/-- handleRegister (functions/items/index.js lines 127-213).
`emailIdxFails` says whether the EmailIndex QueryCommand throws (the catch
continues without the duplicate check); `putFails` says whether the
PutCommand throws. -/
def handleRegister (users : List UserRec) (body : RegisterBody)
    (emailIdxFails putFails : Bool) (freshId now : String) : RegisterOut :=
  if falsyStr body.name || falsyStr body.email || falsyStr body.password ||
      falsyStr body.role then
    ⟨400, [], none, users⟩
  else
    let name := body.name.getD ""
    let email := body.email.getD ""
    let password := body.password.getD ""
    let role := body.role.getD ""
    if !(role == "buyer" || role == "seller") then ⟨400, [], none, users⟩
    else if password.length < 6 then ⟨400, [], none, users⟩
    else
      let dupFound :=
        if emailIdxFails then false
        else ((dynQueryEq users UserRec.email (lowerStr email)).take 1).length > 0
      if dupFound then ⟨409, [], none, users⟩
      else
        let user : UserRec :=
          { userId := freshId, email := lowerStr email, name := name,
            password := bcryptHash password, role := role,
            hasStorefront := false, createdAt := now }
        if putFails then ⟨500, [], none, users⟩
        else
          let token := jwtSign ⟨freshId, user.email, role⟩ jwtSecret
          ⟨201, omitField "password" (userToObj user), some token, users ++ [user]⟩

structure LoginBody where
  email : Option String
  password : Option String
deriving Repr, DecidableEq

structure LoginOut where
  status : Nat
  userFields : List (String × JVal)
  token : Option SignedToken
deriving Repr, DecidableEq

/-- handleLogin (functions/items/index.js lines 215-270).  The EmailIndex
query has no scan fallback: when it throws, the catch returns 500. -/
def handleLogin (users : List UserRec) (body : LoginBody)
    (emailIdxFails : Bool) : LoginOut :=
  if falsyStr body.email || falsyStr body.password then ⟨400, [], none⟩
  else
    let email := body.email.getD ""
    let password := body.password.getD ""
    if emailIdxFails then ⟨500, [], none⟩
    else
      match dynQueryEq users UserRec.email (lowerStr email) with
      | [] => ⟨401, [], none⟩
      | u :: _ =>
        if !(bcryptCompare password u.password) then ⟨401, [], none⟩
        else
          let token := jwtSign ⟨u.userId, u.email, u.role⟩ jwtSecret
          ⟨200, omitField "password" (userToObj u), some token⟩

/-! ## Items handler (src/unnamed/part_000, second document) -/

structure AddItemBody where
  name : Option String
  description : Option String
  price : JVal
  category : Option String
  image : Option String
  storeId : Option String
deriving Repr, DecidableEq

structure AddItemOut where
  status : Nat
  items : List ItemRec
  storedItem : Option ItemRec
deriving Repr, DecidableEq

def defaultItemImage : String :=
  "https://images.unsplash.com/photo-1441986300917-64674bd600d8?auto=format&fit=crop&w=800&q=80"

/-- handleAddItem (src/unnamed/part_000 lines 311-362). -/
def handleAddItem (items : List ItemRec) (body : AddItemBody)
    (putFails : Bool) (freshId now : String) : AddItemOut :=
  if falsyStr body.name || falsyStr body.description || body.price == JVal.undef ||
      falsyStr body.category || falsyStr body.storeId then
    ⟨400, items, none⟩
  else
    match jsParseFloat body.price with
    | JVal.num q =>
      if q < 0 then ⟨400, items, none⟩
      else
        let item : ItemRec :=
          { id := freshId, storeId := body.storeId.getD "",
            name := body.name.getD "", description := body.description.getD "",
            price := q, category := body.category.getD "",
            image := match body.image with
              | some s => if s == "" then defaultItemImage else s
              | none => defaultItemImage,
            averageRating := 0, reviews := [], createdAt := now, updatedAt := now }
        if putFails then ⟨500, items, none⟩
        else ⟨201, items ++ [item], some item⟩
    | _ => ⟨400, items, none⟩

/-! ## Reviews handler (src/unnamed/part_000, third document) -/

structure CreateReviewBody where
  itemId : Option String
  rating : JVal
  comment : Option String
deriving Repr, DecidableEq

structure CreateReviewOut where
  status : Nat
  reviews : List ReviewRec
  storedReview : Option ReviewRec
deriving Repr, DecidableEq

/-- handleCreateReview (src/unnamed/part_000 lines 582-684).  `auth` is the
verifyToken result; `dupIdxFails`/`dupScanFails` control the duplicate-check
query and its scan fallback; `putFails` controls the insert. -/
def handleCreateReview (items : List ItemRec) (reviews : List ReviewRec)
    (auth : Option TokenPayload) (body : CreateReviewBody)
    (dupIdxFails dupScanFails putFails : Bool) (freshId now : String) :
    CreateReviewOut :=
  match auth with
  | none => ⟨401, reviews, none⟩
  | some decoded =>
    if falsyStr body.itemId then ⟨400, reviews, none⟩
    else if body.rating == JVal.undef || jsLT body.rating (JVal.num 1) ||
        jsLT (JVal.num 5) body.rating then
      ⟨400, reviews, none⟩
    else if (match body.comment with
        | none => true
        | some c => c == "" || (jsTrim c).length == 0) then
      ⟨400, reviews, none⟩
    else
      let itemId := body.itemId.getD ""
      match items.find? (fun it => it.id == itemId) with
      | none => ⟨404, reviews, none⟩
      | some _ =>
        match fetchReviewDup reviews itemId decoded.userId dupIdxFails dupScanFails with
        | Except.error _ => ⟨500, reviews, none⟩
        | Except.ok existing =>
          if existing.length > 0 then ⟨409, reviews, none⟩
          else
            let review : ReviewRec :=
              { reviewId := freshId, itemId := itemId, userId := decoded.userId,
                rating := jsParseInt body.rating,
                comment := jsTrim (body.comment.getD ""),
                createdAt := now, updatedAt := now }
            if putFails then ⟨500, reviews, none⟩
            else ⟨201, reviews ++ [review], some review⟩

/-! ## Get-reviews aggregation (src/unnamed/part_000 lines 559-575) -/

/-- reviews.map(r =&gt; r.rating).filter(r =&gt; r !== undefined): the defined
rating values of the returned reviews. -/
def ratingsOf (reviews : List ReviewRec) : List JVal :=
  (reviews.map ReviewRec.rating).filter (fun r => r != JVal.undef)

/-- ratings.length &gt; 0 ? ratings.reduce((sum, r) =&gt; sum + r, 0) /
ratings.length : 0. -/
def averageRatingOf (reviews : List ReviewRec) : JVal :=
  let ratings := ratingsOf reviews
  if ratings.length > 0 then
    jsDivNat (ratings.foldl jsAdd (JVal.num 0)) ratings.length
  else JVal.num 0

/-- The averageRating value of the 200 response:
Math.round(averageRating * 10) / 10. -/
def responseAverage (reviews : List ReviewRec) : JVal :=
  jsRound1 (averageRatingOf reviews)

/-- Written from the spec wording, for comparison with the code: arithmetic
mean of a rating list, 0 on empty input. -/
def specMean (qs : List ℚ) : ℚ :=
  if qs = [] then 0 else qs.sum / (qs.length : ℚ)

/-- Written from the spec wording, for comparison with the code: rounding to
one decimal place (half toward positive infinity). -/
def specRound1 (x : ℚ) : ℚ :=
  ((⌊x * 10 + 1 / 2⌋ : Int) : ℚ) / 10

/-! ## Storefronts handler (src/unnamed/part_000, fourth document) -/

structure CreateStorefrontBody where
  name : Option String
  description : Option String
  category : Option String
  image : Option String
deriving Repr, DecidableEq

structure CreateStorefrontOut where
  status : Nat
  storefronts : List StorefrontRec
  users : List UserRec
  storedStorefront : Option StorefrontRec
deriving Repr, DecidableEq

def defaultStoreImage : String :=
  "https://images.unsplash.com/photo-1441986300917-64674bd600d8?auto=format&fit=crop&w=1400&q=80"

/-- The UpdateCommand of handleCreateStorefront: SET hasStorefront = true on
the owning user record (src/unnamed/part_000 lines 842-853). -/
def updateUserHasStorefront (users : List UserRec) (uid : String) : List UserRec :=
  users.map (fun u => if u.userId == uid then { u with hasStorefront := true } else u)

/-- The storefront object literal of handleCreateStorefront
(src/unnamed/part_000 lines 820-831): ownerName takes the email carried in
the verified token (the source comment reads "Store owner email/name for
display"). -/
def mkStorefront (user : TokenPayload) (body : CreateStorefrontBody)
    (freshId now : String) : StorefrontRec :=
  { storeId := freshId, name := body.name.getD "",
    description := body.description.getD "",
    category := body.category.getD "",
    image := match body.image with
      | some s => if s == "" then defaultStoreImage else s
      | none => defaultStoreImage,
    owner := user.userId, ownerName := user.email,
    items := [], createdAt := now, updatedAt := now }

/-- handleCreateStorefront (src/unnamed/part_000 lines 798-863).  The
storefront PutCommand and the user UpdateCommand run in sequence inside one
try block; if the put succeeds and the update throws, the catch returns 500
with the storefront already persisted. -/
def handleCreateStorefront (storefronts : List StorefrontRec) (users : List UserRec)
    (auth : Option TokenPayload) (body : CreateStorefrontBody)
    (putFails updateFails : Bool) (freshId now : String) : CreateStorefrontOut :=
  match auth with
  | none => ⟨401, storefronts, users, none⟩
  | some user =>
    if user.role != "seller" then ⟨403, storefronts, users, none⟩
    else if falsyStr body.name || falsyStr body.description ||
        falsyStr body.category then
      ⟨400, storefronts, users, none⟩
    else
      let storefront : StorefrontRec := mkStorefront user body freshId now
      if putFails then ⟨500, storefronts, users, none⟩
      else if updateFails then ⟨500, storefronts ++ [storefront], users, none⟩
      else ⟨201, storefronts ++ [storefront],
        updateUserHasStorefront users user.userId, some storefront⟩

/-! ## Orders handler (src/unnamed/part_000, first document) -/

/-- Request body of handleCreateOrder: items is `none` when absent or not an
array, total keeps its JavaScript value. -/
structure CreateOrderBody where
  items : Option (List String)
  shippingAddress : Option String
  total : JVal
deriving Repr, DecidableEq

structure CreateOrderOut where
  status : Nat
  orders : List OrderRec
  storedOrder : Option OrderRec
deriving Repr, DecidableEq

/-- handleCreateOrder (src/unnamed/part_000 lines 179-235): auth check, the
three validations, then a single PutCommand of the order record. -/
def handleCreateOrder (orders : List OrderRec) (auth : Option TokenPayload)
    (body : CreateOrderBody) (putFails : Bool) (freshId now : String) :
    CreateOrderOut :=
  match auth with
  | none => ⟨401, orders, none⟩
  | some decoded =>
    match body.items with
    | none => ⟨400, orders, none⟩
    | some its =>
      if its.length = 0 then ⟨400, orders, none⟩
      else if falsyStr body.shippingAddress then ⟨400, orders, none⟩
      else if body.total == JVal.undef || jsLE body.total (JVal.num 0) then
        ⟨400, orders, none⟩
      else
        let order : OrderRec :=
          { orderId := freshId, userId := decoded.userId, items := its,
            shippingAddress := body.shippingAddress.getD "",
            total := jsParseFloat body.total, status := "pending",
            createdAt := now, updatedAt := now }
        if putFails then ⟨500, orders, none⟩
        else ⟨201, orders ++ [order], some order⟩

/-! ## Concrete instances used by counterexamples and witnesses -/

/-- Users table holding one registered account, used to exhibit the missing
scan fallback of the accounts-by-email lookup. -/
def c1db : List UserRec :=
  [⟨"u0", "a@b.c", "A", "bcrypt$secret1", "buyer", false, "t0"⟩]

/-- A registration request whose email collides (case-insensitively) with the
account already in `c1db`. -/
def c1regBody : RegisterBody :=
  ⟨some "Bob", some "A@B.C", some "secret2", some "buyer"⟩

/-- Registration run with the EmailIndex query failing. -/
def c1regIdxDown : RegisterOut :=
  handleRegister c1db c1regBody true false "u1" "t1"

/-- The same registration with the EmailIndex query working. -/
def c1regIdxUp : RegisterOut :=
  handleRegister c1db c1regBody false false "u1" "t1"

/-- Login run for the existing account with the EmailIndex query failing. -/
def c1loginIdxDown : LoginOut :=
  handleLogin c1db ⟨some "a@b.c", some "secret1"⟩ true

/-- Two returned reviews with ratings 4 and 5, for the average-rating
witness. -/
def c3reviews : List ReviewRec :=
  [⟨"r1", "i1", "u1", JVal.num 4, "good", "t1", "t1"⟩,
   ⟨"r2", "i1", "u2", JVal.num 5, "great", "t2", "t2"⟩]

/-- One catalog item, target of the review-creation runs. -/
def c4item : ItemRec :=
  ⟨"i1", "s1", "Thing", "d", 5, "c", "img", 0, [], "t0", "t0"⟩

/-- An existing review of item i1 by account u1. -/
def c4existing : ReviewRec :=
  ⟨"r0", "i1", "u1", JVal.num 3, "ok", "t0", "t0"⟩

/-- A seller account, owner-to-be of a storefront. -/
def c8seller : UserRec :=
  ⟨"u1", "sam@x.io", "Sam", "bcrypt$abcdef", "seller", false, "t0"⟩

/-- The seller's token as carried by the Authorization header. -/
def c8tok : TokenPayload :=
  ⟨"u1", "sam@x.io", "seller"⟩

/-- Create-storefront run in which the storefront PutCommand succeeds and the
user-flag UpdateCommand throws. -/
def c8run : CreateStorefrontOut :=
  handleCreateStorefront [] [c8seller] (some c8tok)
    ⟨some "Shop", some "Nice shop", some "crafts", none⟩ false true "s1" "t1"

/-- An account whose display name differs from its email. -/
def c9user : UserRec :=
  ⟨"u1", "alice@x.io", "Alice", "bcrypt$abcdef", "seller", false, "t0"⟩

/-- The token issued to that account (it carries id, email and role only). -/
def c9tok : TokenPayload :=
  ⟨"u1", "alice@x.io", "seller"⟩

/-- A fully successful create-storefront run by that account. -/
def c9run : CreateStorefrontOut :=
  handleCreateStorefront [] [c9user] (some c9tok)
    ⟨some "Shop", some "Nice shop", some "crafts", none⟩ false false "s1" "t1"

/-- The item targeted by the out-of-range rating submissions. -/
def c10item : ItemRec :=
  ⟨"i1", "s1", "Thing", "d", 5, "c", "img", 0, [], "t0", "t0"⟩

/-- Create-review run with the non-numeric rating "abc". -/
def c10runStr : CreateReviewOut :=
  handleCreateReview [c10item] [] (some ⟨"u1", "u@x.io", "buyer"⟩)
    ⟨some "i1", JVal.str "abc", some "nice"⟩ false false false "r1" "t1"

/-- Create-review run with the non-integer rating 2.5 (written as the
fraction 5/2). -/
def c10runFrac : CreateReviewOut :=
  handleCreateReview [c10item] [] (some ⟨"u1", "u@x.io", "buyer"⟩)
    ⟨some "i1", JVal.num (Rat.divInt 5 2), some "nice"⟩ false false false "r2" "t1"

/-! ## Helper lemmas -/

/-- The duplicate-check index path (key condition plus post-query filter)
merges into the single scan filter. -/
theorem reviewDup_paths_eq (tbl : List ReviewRec) (iid uid : String) :
    reviewDupIndexPath tbl iid uid = reviewDupScanPath tbl iid uid := by
  unfold reviewDupIndexPath reviewDupScanPath dynQueryEq
  rw [List.filter_filter]
  congr 1
  funext r
  rw [Bool.and_comm]

/-- A filtered list is nonempty exactly when some element satisfies the
predicate. -/
theorem length_filter_pos_iff_any {α : Type} (l : List α) (p : α → Bool) :
    0 < (l.filter p).length ↔ l.any p = true := by
  induction l with
  | nil => simp
  | cons a t ih =>
    by_cases h : p a = true <;> simp [h, ih]

/-- Folding JavaScript addition over numeric ratings is rational addition. -/
theorem foldl_jsAdd (qs : List ℚ) (a : ℚ) :
    (qs.map JVal.num).foldl jsAdd (JVal.num a) = JVal.num (qs.foldl (· + ·) a) := by
  induction qs generalizing a with
  | nil => rfl
  | cons q t ih => simp [jsAdd, List.foldl, ih]

/-! # Claims -/

/-- C2: for every table state and every lookup predicate, the index-backed
query path and the scan-fallback path of each lookup (orders-by-account,
items-by-storefront, reviews-by-item, storefronts-by-owner, and the
duplicate-review check) return identical result sets: both sides use the same
field name, the same equality comparison, and the same optional extra
filter. -/
theorem c2_index_scan_predicate_equiv :
    (∀ (tbl : List OrderRec) (uid : String),
        ordersIndexPath tbl uid = ordersScanPath tbl uid) ∧
    (∀ (tbl : List ItemRec) (sid : String),
        itemsIndexPath tbl sid = itemsScanPath tbl sid) ∧
    (∀ (tbl : List ReviewRec) (iid : String),
        reviewsIndexPath tbl iid = reviewsScanPath tbl iid) ∧
    (∀ (tbl : List StorefrontRec) (ow : String),
        storefrontsIndexPath tbl ow = storefrontsScanPath tbl ow) ∧
    (∀ (tbl : List ReviewRec) (iid uid : String),
        reviewDupIndexPath tbl iid uid = reviewDupScanPath tbl iid uid) := by
  exact ⟨fun _ _ => rfl, fun _ _ => rfl, fun _ _ => rfl, fun _ _ => rfl,
    reviewDup_paths_eq⟩

/-- C1 counterexample: the accounts-by-email lookup does not fall back to a
scan.  With the email index failing, registration of a duplicate email
returns 201 and inserts a second account, although the equivalent full-table
scan finds the duplicate (the handler itself answers 409 whenever the lookup
does see the table).  Login for an existing account surfaces a 500 when only
the index fails, although the scan fallback was never exhausted. -/
theorem c1_email_no_fallback_counterexample :
    c1regIdxDown.status = 201 ∧
    c1regIdxDown.users.length = 2 ∧
    dynScanFilterEq c1db UserRec.email (lowerStr "A@B.C") ≠ [] ∧
    c1regIdxUp.status = 409 ∧
    c1loginIdxDown.status = 500 := by
  decide

/-- C1 amended: for the dual-path lookups (orders-by-account,
items-by-storefront, reviews-by-item, storefronts-by-owner, and the
duplicate-review check) any failure of the index-backed query retries the
same predicate as a full-table scan and returns those results; a data-access
failure is surfaced only when both paths fail, and a missing index alone is
never an error.  (The accounts-by-email lookup has no such fallback: the
counterexample above shows registration continuing without the duplicate
check and login surfacing a 500.) -/
theorem c1_fallback_amended :
    (∀ (tbl : List OrderRec) (uid : String) (iF sF : Bool),
        (fetchOrdersByUser tbl uid iF sF = Except.error () ↔ iF = true ∧ sF = true) ∧
        (iF = true → sF = false →
          fetchOrdersByUser tbl uid iF sF = Except.ok (ordersScanPath tbl uid)) ∧
        (iF = false →
          fetchOrdersByUser tbl uid iF sF = Except.ok (ordersIndexPath tbl uid))) ∧
    (∀ (tbl : List ItemRec) (sid : String) (iF sF : Bool),
        (fetchItemsByStore tbl sid iF sF = Except.error () ↔ iF = true ∧ sF = true) ∧
        (iF = true → sF = false →
          fetchItemsByStore tbl sid iF sF = Except.ok (itemsScanPath tbl sid)) ∧
        (iF = false →
          fetchItemsByStore tbl sid iF sF = Except.ok (itemsIndexPath tbl sid))) ∧
    (∀ (tbl : List ReviewRec) (iid : String) (iF sF : Bool),
        (fetchReviewsByItem tbl iid iF sF = Except.error () ↔ iF = true ∧ sF = true) ∧
        (iF = true → sF = false →
          fetchReviewsByItem tbl iid iF sF = Except.ok (reviewsScanPath tbl iid)) ∧
        (iF = false →
          fetchReviewsByItem tbl iid iF sF = Except.ok (reviewsIndexPath tbl iid))) ∧
    (∀ (tbl : List StorefrontRec) (ow : String) (iF sF : Bool),
        (fetchStorefrontsByOwner tbl ow iF sF = Except.error () ↔ iF = true ∧ sF = true) ∧
        (iF = true → sF = false →
          fetchStorefrontsByOwner tbl ow iF sF = Except.ok (storefrontsScanPath tbl ow)) ∧
        (iF = false →
          fetchStorefrontsByOwner tbl ow iF sF =
            Except.ok (storefrontsIndexPath tbl ow))) ∧
    (∀ (tbl : List ReviewRec) (iid uid : String) (iF sF : Bool),
        (fetchReviewDup tbl iid uid iF sF = Except.error () ↔ iF = true ∧ sF = true) ∧
        (iF = true → sF = false →
          fetchReviewDup tbl iid uid iF sF = Except.ok (reviewDupScanPath tbl iid uid)) ∧
        (iF = false →
          fetchReviewDup tbl iid uid iF sF =
            Except.ok (reviewDupIndexPath tbl iid uid))) := by
  refine ⟨?_, ?_, ?_, ?_, ?_⟩
  · intro tbl k iF sF
    cases iF <;> cases sF <;> simp [fetchOrdersByUser]
  · intro tbl k iF sF
    cases iF <;> cases sF <;> simp [fetchItemsByStore]
  · intro tbl k iF sF
    cases iF <;> cases sF <;> simp [fetchReviewsByItem]
  · intro tbl k iF sF
    cases iF <;> cases sF <;> simp [fetchStorefrontsByOwner]
  · intro tbl iid uid iF sF
    cases iF <;> cases sF <;> simp [fetchReviewDup]

/-- Witness for the amended C1: a concrete index-failure run of the orders
lookup returns exactly the scan results. -/
theorem c1_fallback_amended_witness :
    fetchOrdersByUser [] "u" true false = Except.ok (ordersScanPath [] "u") :=
  (c1_fallback_amended.1 [] "u" true false).2.1 rfl rfl

/-- C3: for every list of returned reviews whose defined rating values are
the numbers `qs`, the averageRating of the get-reviews response equals the
arithmetic mean of `qs` rounded to one decimal place, and it is exactly 0
when there are zero reviews. -/
theorem c3_average_rating (reviews : List ReviewRec) (qs : List ℚ)
    (h : ratingsOf reviews = qs.map JVal.num) :
    responseAverage reviews = JVal.num (specRound1 (specMean qs)) ∧
    (reviews = [] → responseAverage reviews = JVal.num 0) := by
  have hmain : responseAverage reviews = JVal.num (specRound1 (specMean qs)) := by
    simp only [responseAverage, averageRatingOf, h]
    cases qs with
    | nil =>
      norm_num [jsRound1, specRound1, specMean]
    | cons q t =>
      simp only [List.length_map, List.length_cons, gt_iff_lt, Nat.zero_lt_succ,
        if_true, foldl_jsAdd, jsDivNat, Nat.succ_ne_zero, if_false, jsRound1]
      rw [specMean, if_neg (by simp), List.sum_eq_foldl, specRound1]
      norm_num
  refine ⟨hmain, fun hrev => ?_⟩
  subst hrev
  have hq : qs = [] := by
    cases qs with
    | nil => rfl
    | cons q t => simp [ratingsOf] at h
  subst hq
  rw [hmain]
  norm_num [specRound1, specMean]

/-- Witness for C3: two reviews rated 4 and 5 give the rounded mean of
[4, 5]. -/
theorem c3_average_rating_witness :
    responseAverage c3reviews = JVal.num (specRound1 (specMean [4, 5])) ∧
    (c3reviews = [] → responseAverage c3reviews = JVal.num 0) :=
  c3_average_rating c3reviews [4, 5] (by decide)

/-- C4: for every review submission by an authenticated account for an
existing item with valid fields, if a review by that account for that item is
already in the store the operation returns 409 and inserts nothing; if no
such review exists the insert proceeds. -/
theorem c4_duplicate_review_guard
    (items : List ItemRec) (reviews : List ReviewRec) (tok : TokenPayload)
    (iid cmt : String) (rating : JVal) (fid now : String)
    (hiid : iid ≠ "")
    (hrat : (rating == JVal.undef || jsLT rating (JVal.num 1) ||
      jsLT (JVal.num 5) rating) = false)
    (hcmt : (cmt == "" || (jsTrim cmt).length == 0) = false)
    (hitem : (items.find? (fun it => it.id == iid)).isSome = true) :
    (reviews.any (fun r => r.itemId == iid && r.userId == tok.userId) = true →
      (handleCreateReview items reviews (some tok) ⟨some iid, rating, some cmt⟩
          false false false fid now).status = 409 ∧
      (handleCreateReview items reviews (some tok) ⟨some iid, rating, some cmt⟩
          false false false fid now).reviews = reviews) ∧
    (reviews.any (fun r => r.itemId == iid && r.userId == tok.userId) = false →
      (handleCreateReview items reviews (some tok) ⟨some iid, rating, some cmt⟩
          false false false fid now).status = 201 ∧
      (handleCreateReview items reviews (some tok) ⟨some iid, rating, some cmt⟩
          false false false fid now).reviews =
        reviews ++ [⟨fid, iid, tok.userId, jsParseInt rating, jsTrim cmt, now, now⟩]) := by
  have h1 : (iid == "") = false := by
    simpa using hiid
  obtain ⟨it0, hit⟩ := Option.isSome_iff_exists.mp hitem
  have hpath : reviewDupIndexPath reviews iid tok.userId =
      reviews.filter (fun r => r.itemId == iid && r.userId == tok.userId) :=
    reviewDup_paths_eq reviews iid tok.userId
  constructor
  · intro hdup
    have hlen : 0 < (reviewDupIndexPath reviews iid tok.userId).length := by
      rw [hpath]
      exact (length_filter_pos_iff_any reviews _).mpr hdup
    constructor <;>
      simp [handleCreateReview, fetchReviewDup, falsyStr, h1, hrat, hcmt, hit, hlen]
  · intro hndup
    have hlen : ¬ 0 < (reviewDupIndexPath reviews iid tok.userId).length := by
      rw [hpath]
      intro hcon
      rw [(length_filter_pos_iff_any reviews _).mp hcon] at hndup
      exact absurd hndup (by simp)
    constructor <;>
      simp [handleCreateReview, fetchReviewDup, falsyStr, h1, hrat, hcmt, hit, hlen]

/-- Witness for C4: with an existing review by u1 on i1, a second submission
by u1 yields 409 and leaves the reviews table unchanged. -/
theorem c4_duplicate_review_guard_witness :
    (handleCreateReview [c4item] [c4existing] (some ⟨"u1", "u@x.io", "buyer"⟩)
        ⟨some "i1", JVal.num 4, some "nice"⟩ false false false "r9" "t9").status = 409 ∧
    (handleCreateReview [c4item] [c4existing] (some ⟨"u1", "u@x.io", "buyer"⟩)
        ⟨some "i1", JVal.num 4, some "nice"⟩ false false false "r9" "t9").reviews =
      [c4existing] :=
  (c4_duplicate_review_guard [c4item] [c4existing] ⟨"u1", "u@x.io", "buyer"⟩
    "i1" "nice" (JVal.num 4) "r9" "t9" (by decide) (by decide) (by decide)
    (by decide)).1 (by decide)

/-- C5: every valid registration answers 201 with a user object carrying no
password field, and a subsequent login with the same email and password
succeeds with 200 and returns a token that decodes to the created account's
id and role. -/
theorem c5_register_login_roundtrip
    (users : List UserRec) (name email password role fid now : String)
    (hn : name ≠ "") (he : email ≠ "") (hp : 6 ≤ password.length)
    (hr : (role == "buyer" || role == "seller") = true)
    (hdup : dynQueryEq users UserRec.email (lowerStr email) = []) :
    (handleRegister users ⟨some name, some email, some password, some role⟩
        false false fid now).status = 201 ∧
    lookupField "password"
      (handleRegister users ⟨some name, some email, some password, some role⟩
        false false fid now).userFields = none ∧
    (handleLogin
        (handleRegister users ⟨some name, some email, some password, some role⟩
          false false fid now).users
        ⟨some email, some password⟩ false).status = 200 ∧
    ∃ t,
      (handleLogin
          (handleRegister users ⟨some name, some email, some password, some role⟩
            false false fid now).users
          ⟨some email, some password⟩ false).token = some t ∧
      jwtVerify t jwtSecret = some ⟨fid, lowerStr email, role⟩ := by
  have hpw : password ≠ "" := by
    intro hcon
    rw [hcon] at hp
    simp at hp
  have hfn : (name == "") = false := by simpa using hn
  have hfe : (email == "") = false := by simpa using he
  have hfp : (password == "") = false := by simpa using hpw
  have hrole : role = "buyer" ∨ role = "seller" := by simpa using hr
  have hfr : (role == "") = false := by
    rcases hrole with h | h <;> simp [h]
  have hlt : ¬ password.length < 6 := Nat.not_lt.mpr hp
  have hreg : handleRegister users
      ⟨some name, some email, some password, some role⟩ false false fid now =
      ⟨201,
       omitField "password" (userToObj
         ⟨fid, lowerStr email, name, bcryptHash password, role, false, now⟩),
       some (jwtSign ⟨fid, lowerStr email, role⟩ jwtSecret),
       users ++ [⟨fid, lowerStr email, name, bcryptHash password, role, false, now⟩]⟩ := by
    simp [handleRegister, falsyStr, hfn, hfe, hfp, hfr, hr, hlt, hdup]
  have hq : dynQueryEq
      (users ++ [⟨fid, lowerStr email, name, bcryptHash password, role, false, now⟩])
      UserRec.email (lowerStr email) =
      [⟨fid, lowerStr email, name, bcryptHash password, role, false, now⟩] := by
    unfold dynQueryEq at hdup ⊢
    rw [List.filter_append, hdup]
    simp
  have hlog : handleLogin
      (users ++ [⟨fid, lowerStr email, name, bcryptHash password, role, false, now⟩])
      ⟨some email, some password⟩ false =
      ⟨200,
       omitField "password" (userToObj
         ⟨fid, lowerStr email, name, bcryptHash password, role, false, now⟩),
       some (jwtSign ⟨fid, lowerStr email, role⟩ jwtSecret)⟩ := by
    simp [handleLogin, falsyStr, hfe, hfp, hq, bcryptCompare]
  rw [hreg]
  refine ⟨rfl, ?_, ?_, ?_⟩
  · simp [lookupField, omitField, userToObj]
  · rw [hlog]
  · rw [hlog]
    exact ⟨_, rfl, by simp [jwtVerify, jwtSign]⟩

/-- Witness for C5: a concrete registration of a seller account followed by a
login with the same credentials. -/
theorem c5_register_login_roundtrip_witness :
    (handleRegister [] ⟨some "Alice", some "A@x.io", some "secret1", some "seller"⟩
        false false "u1" "t1").status = 201 ∧
    lookupField "password"
      (handleRegister [] ⟨some "Alice", some "A@x.io", some "secret1", some "seller"⟩
        false false "u1" "t1").userFields = none ∧
    (handleLogin
        (handleRegister [] ⟨some "Alice", some "A@x.io", some "secret1", some "seller"⟩
          false false "u1" "t1").users
        ⟨some "A@x.io", some "secret1"⟩ false).status = 200 ∧
    ∃ t,
      (handleLogin
          (handleRegister [] ⟨some "Alice", some "A@x.io", some "secret1", some "seller"⟩
            false false "u1" "t1").users
          ⟨some "A@x.io", some "secret1"⟩ false).token = some t ∧
      jwtVerify t jwtSecret = some ⟨"u1", lowerStr "A@x.io", "seller"⟩ :=
  c5_register_login_roundtrip [] "Alice" "A@x.io" "secret1" "seller" "u1" "t1"
    (by decide) (by decide) (by decide) (by decide) (by decide)

/-- C6: for every pair of valid registrations whose emails agree after case
normalization, the second attempt (with the email index available) returns
409 and inserts nothing: the email is lowercased before the uniqueness lookup
and before the write, so the duplicate check is case-insensitive. -/
theorem c6_duplicate_email_case_insensitive
    (users : List UserRec) (n1 e1 p1 r1 n2 e2 p2 r2 fid1 fid2 ts1 ts2 : String)
    (hn1 : n1 ≠ "") (he1 : e1 ≠ "") (hp1 : 6 ≤ p1.length)
    (hr1 : (r1 == "buyer" || r1 == "seller") = true)
    (hn2 : n2 ≠ "") (he2 : e2 ≠ "") (hp2 : 6 ≤ p2.length)
    (hr2 : (r2 == "buyer" || r2 == "seller") = true)
    (hca : lowerStr e1 = lowerStr e2)
    (hdup : dynQueryEq users UserRec.email (lowerStr e1) = []) :
    (handleRegister users ⟨some n1, some e1, some p1, some r1⟩
        false false fid1 ts1).status = 201 ∧
    (handleRegister
        (handleRegister users ⟨some n1, some e1, some p1, some r1⟩
          false false fid1 ts1).users
        ⟨some n2, some e2, some p2, some r2⟩ false false fid2 ts2).status = 409 ∧
    (handleRegister
        (handleRegister users ⟨some n1, some e1, some p1, some r1⟩
          false false fid1 ts1).users
        ⟨some n2, some e2, some p2, some r2⟩ false false fid2 ts2).users =
      (handleRegister users ⟨some n1, some e1, some p1, some r1⟩
        false false fid1 ts1).users := by
  have hpw1 : p1 ≠ "" := by
    intro hcon
    rw [hcon] at hp1
    simp at hp1
  have hpw2 : p2 ≠ "" := by
    intro hcon
    rw [hcon] at hp2
    simp at hp2
  have hfn1 : (n1 == "") = false := by simpa using hn1
  have hfe1 : (e1 == "") = false := by simpa using he1
  have hfp1 : (p1 == "") = false := by simpa using hpw1
  have hfr1 : (r1 == "") = false := by
    have : r1 = "buyer" ∨ r1 = "seller" := by simpa using hr1
    rcases this with h | h <;> simp [h]
  have hfn2 : (n2 == "") = false := by simpa using hn2
  have hfe2 : (e2 == "") = false := by simpa using he2
  have hfp2 : (p2 == "") = false := by simpa using hpw2
  have hfr2 : (r2 == "") = false := by
    have : r2 = "buyer" ∨ r2 = "seller" := by simpa using hr2
    rcases this with h | h <;> simp [h]
  have hlt1 : ¬ p1.length < 6 := Nat.not_lt.mpr hp1
  have hlt2 : ¬ p2.length < 6 := Nat.not_lt.mpr hp2
  have hreg1 : handleRegister users ⟨some n1, some e1, some p1, some r1⟩
      false false fid1 ts1 =
      ⟨201,
       omitField "password" (userToObj
         ⟨fid1, lowerStr e1, n1, bcryptHash p1, r1, false, ts1⟩),
       some (jwtSign ⟨fid1, lowerStr e1, r1⟩ jwtSecret),
       users ++ [⟨fid1, lowerStr e1, n1, bcryptHash p1, r1, false, ts1⟩]⟩ := by
    simp [handleRegister, falsyStr, hfn1, hfe1, hfp1, hfr1, hr1, hlt1, hdup]
  have hq2 : dynQueryEq
      (users ++ [⟨fid1, lowerStr e1, n1, bcryptHash p1, r1, false, ts1⟩])
      UserRec.email (lowerStr e2) =
      [⟨fid1, lowerStr e1, n1, bcryptHash p1, r1, false, ts1⟩] := by
    unfold dynQueryEq at hdup ⊢
    rw [← hca, List.filter_append, hdup]
    simp
  rw [hreg1]
  refine ⟨rfl, ?_, ?_⟩ <;>
    simp [handleRegister, falsyStr, hfn2, hfe2, hfp2, hfr2, hr2, hlt2, hq2]

/-- Witness for C6: registering a@b.C after A@B.c (same email up to case)
yields 409 and no second insert. -/
theorem c6_duplicate_email_case_insensitive_witness :
    (handleRegister [] ⟨some "Ann", some "A@B.c", some "secret1", some "buyer"⟩
        false false "u1" "t1").status = 201 ∧
    (handleRegister
        (handleRegister [] ⟨some "Ann", some "A@B.c", some "secret1", some "buyer"⟩
          false false "u1" "t1").users
        ⟨some "Ben", some "a@b.C", some "secret2", some "buyer"⟩
        false false "u2" "t2").status = 409 ∧
    (handleRegister
        (handleRegister [] ⟨some "Ann", some "A@B.c", some "secret1", some "buyer"⟩
          false false "u1" "t1").users
        ⟨some "Ben", some "a@b.C", some "secret2", some "buyer"⟩
        false false "u2" "t2").users =
      (handleRegister [] ⟨some "Ann", some "A@B.c", some "secret1", some "buyer"⟩
        false false "u1" "t1").users :=
  c6_duplicate_email_case_insensitive [] "Ann" "A@B.c" "secret1" "buyer"
    "Ben" "a@b.C" "secret2" "buyer" "u1" "u2" "t1" "t2"
    (by decide) (by decide) (by decide) (by decide) (by decide) (by decide)
    (by decide) (by decide) (by decide) (by decide)

/-- C7: boundary validation at the public interface: add-item accepts
price = 0 and rejects price = -0.01 with 400; create-review rejects
rating = 0 and rating = 6 with 400 and rejects a whitespace-only comment
with 400. -/
theorem c7_boundary_validation
    (items revItems : List ItemRec) (reviews : List ReviewRec)
    (n d cat sid fid now : String) (tok : TokenPayload) (iid cmt : String)
    (hn : n ≠ "") (hd : d ≠ "") (hcat : cat ≠ "") (hsid : sid ≠ "")
    (hiid : iid ≠ "") :
    (handleAddItem items ⟨some n, some d, JVal.num 0, some cat, none, some sid⟩
        false fid now).status = 201 ∧
    (handleAddItem items
        ⟨some n, some d, JVal.num (-1 / 100), some cat, none, some sid⟩
        false fid now).status = 400 ∧
    (handleCreateReview revItems reviews (some tok)
        ⟨some iid, JVal.num 0, some cmt⟩ false false false fid now).status = 400 ∧
    (handleCreateReview revItems reviews (some tok)
        ⟨some iid, JVal.num 6, some cmt⟩ false false false fid now).status = 400 ∧
    (handleCreateReview revItems reviews (some tok)
        ⟨some iid, JVal.num 4, some "   "⟩ false false false fid now).status = 400 := by
  have hfn : (n == "") = false := by simpa using hn
  have hfd : (d == "") = false := by simpa using hd
  have hfc : (cat == "") = false := by simpa using hcat
  have hfs : (sid == "") = false := by simpa using hsid
  have hfi : (iid == "") = false := by simpa using hiid
  have hlt0 : jsLT (JVal.num 0) (JVal.num 1) = true := by decide
  have hgt6 : jsLT (JVal.num 5) (JVal.num 6) = true := by decide
  have h41 : jsLT (JVal.num 4) (JVal.num 1) = false := by decide
  have h54 : jsLT (JVal.num 5) (JVal.num 4) = false := by decide
  have hws : ((("   " : String) == "") || ((jsTrim "   ").length == 0)) = true := by
    decide
  refine ⟨?_, ?_, ?_, ?_, ?_⟩
  · simp [handleAddItem, falsyStr, hfn, hfd, hfc, hfs, jsParseFloat]
  · simp [handleAddItem, falsyStr, hfn, hfd, hfc, hfs, jsParseFloat]
    norm_num
  · simp [handleCreateReview, falsyStr, hfi, hlt0]
  · simp [handleCreateReview, falsyStr, hfi, hgt6]
  · simp only [handleCreateReview, falsyStr, hfi, h41, h54, Bool.or_false,
      Bool.false_or, hws]
    simp

/-- Witness for C7: the boundary runs at concrete field values. -/
theorem c7_boundary_validation_witness :
    (handleAddItem [] ⟨some "Pen", some "Ink", JVal.num 0, some "office", none,
        some "s1"⟩ false "i1" "t1").status = 201 ∧
    (handleAddItem []
        ⟨some "Pen", some "Ink", JVal.num (-1 / 100), some "office", none,
          some "s1"⟩ false "i1" "t1").status = 400 ∧
    (handleCreateReview [] [] (some ⟨"u1", "u@x.io", "buyer"⟩)
        ⟨some "i1", JVal.num 0, some "fine"⟩ false false false "r1" "t1").status = 400 ∧
    (handleCreateReview [] [] (some ⟨"u1", "u@x.io", "buyer"⟩)
        ⟨some "i1", JVal.num 6, some "fine"⟩ false false false "r1" "t1").status = 400 ∧
    (handleCreateReview [] [] (some ⟨"u1", "u@x.io", "buyer"⟩)
        ⟨some "i1", JVal.num 4, some "   "⟩ false false false "r1" "t1").status = 400 :=
  c7_boundary_validation [] [] [] "Pen" "Ink" "office" "s1" "i1" "t1"
    ⟨"u1", "u@x.io", "buyer"⟩ "i1" "fine"
    (by decide) (by decide) (by decide) (by decide) (by decide)

/-- C8 counterexample: when the storefront PutCommand succeeds and the
hasStorefront UpdateCommand throws, create-storefront returns an error (500)
yet the storefront record has been persisted — a partial success under an
error response, contradicting the claim that an error leaves the store
unchanged. -/
theorem c8_partial_write_counterexample :
    c8run.status = 500 ∧
    c8run.storefronts ≠ [] ∧
    c8run.users = [c8seller] ∧
    c8seller.hasStorefront = false := by
  decide

/-- C8 amended: every writing operation (register, add-item, create-review,
create-order) leaves its table unchanged whenever it answers an error status
(the read handlers and login perform no writes at all); create-storefront
leaves the store unchanged on every error except one case: when the
storefront put succeeds and the owner-flag update fails it returns 500 with
the storefront persisted (and the users table unchanged). -/
theorem c8_error_leaves_store_amended :
    (∀ (sfs : List StorefrontRec) (users : List UserRec)
        (auth : Option TokenPayload) (body : CreateStorefrontBody)
        (pF uF : Bool) (fid now : String),
        400 ≤ (handleCreateStorefront sfs users auth body pF uF fid now).status →
        (handleCreateStorefront sfs users auth body pF uF fid now).users = users ∧
        ((handleCreateStorefront sfs users auth body pF uF fid now).storefronts = sfs ∨
          (pF = false ∧ uF = true ∧ ∃ sf,
            (handleCreateStorefront sfs users auth body pF uF fid now).storefronts =
              sfs ++ [sf]))) ∧
    (∀ (us : List UserRec) (body : RegisterBody) (iF pF : Bool) (fid now : String),
        400 ≤ (handleRegister us body iF pF fid now).status →
        (handleRegister us body iF pF fid now).users = us) ∧
    (∀ (its : List ItemRec) (body : AddItemBody) (pF : Bool) (fid now : String),
        400 ≤ (handleAddItem its body pF fid now).status →
        (handleAddItem its body pF fid now).items = its) ∧
    (∀ (its : List ItemRec) (rvs : List ReviewRec) (auth : Option TokenPayload)
        (body : CreateReviewBody) (dF sF pF : Bool) (fid now : String),
        400 ≤ (handleCreateReview its rvs auth body dF sF pF fid now).status →
        (handleCreateReview its rvs auth body dF sF pF fid now).reviews = rvs) ∧
    (∀ (ords : List OrderRec) (auth : Option TokenPayload)
        (body : CreateOrderBody) (pF : Bool) (fid now : String),
        400 ≤ (handleCreateOrder ords auth body pF fid now).status →
        (handleCreateOrder ords auth body pF fid now).orders = ords) := by
  refine ⟨?_, ?_, ?_, ?_, ?_⟩
  · intro sfs users auth body pF uF fid now
    rcases auth with _ | user
    · intro _
      exact ⟨rfl, Or.inl rfl⟩
    · simp only [handleCreateStorefront]
      split
      · intro _
        exact ⟨rfl, Or.inl rfl⟩
      · split
        · intro _
          exact ⟨rfl, Or.inl rfl⟩
        · split
          · intro _
            exact ⟨rfl, Or.inl rfl⟩
          · split
            · next hpf huf =>
              intro _
              exact ⟨rfl, Or.inr ⟨by simpa using hpf, huf, _, rfl⟩⟩
            · intro h
              simp at h
  · intro us body iF pF fid now
    simp only [handleRegister]
    repeat' split
    all_goals intro h
    all_goals first
      | rfl
      | simp_all
  · intro its body pF fid now
    simp only [handleAddItem]
    repeat' split
    all_goals intro h
    all_goals first
      | rfl
      | simp_all
  · intro its rvs auth body dF sF pF fid now
    rcases auth with _ | decoded
    · intro _
      rfl
    · simp only [handleCreateReview]
      repeat' split
      all_goals intro h
      all_goals first
        | rfl
        | simp_all
  · intro ords auth body pF fid now
    rcases auth with _ | decoded
    · intro _
      rfl
    · simp only [handleCreateOrder]
      repeat' split
      all_goals intro h
      all_goals first
        | rfl
        | simp_all

/-- Witness for the amended C8: a create-storefront run whose put fails
answers 500 with both tables untouched. -/
theorem c8_error_leaves_store_amended_witness :
    (handleCreateStorefront [] [c8seller] (some c8tok)
        ⟨some "Shop", some "Nice shop", some "crafts", none⟩
        true false "s1" "t1").users = [c8seller] ∧
    ((handleCreateStorefront [] [c8seller] (some c8tok)
        ⟨some "Shop", some "Nice shop", some "crafts", none⟩
        true false "s1" "t1").storefronts = [] ∨
      (true = false ∧ false = true ∧ ∃ sf,
        (handleCreateStorefront [] [c8seller] (some c8tok)
            ⟨some "Shop", some "Nice shop", some "crafts", none⟩
            true false "s1" "t1").storefronts = [] ++ [sf])) :=
  c8_error_leaves_store_amended.1 [] [c8seller] (some c8tok)
    ⟨some "Shop", some "Nice shop", some "crafts", none⟩
    true false "s1" "t1" (by decide)

/-- C9 counterexample: the stored storefront's ownerName is the creating
account's email as carried in the token, not the account's display name
("Alice"), although the owner field does equal the account id. -/
theorem c9_owner_name_counterexample :
    c9run.status = 201 ∧
    c9run.storedStorefront.map StorefrontRec.ownerName = some c9user.email ∧
    c9run.storedStorefront.map StorefrontRec.ownerName ≠ some c9user.name ∧
    c9run.storedStorefront.map StorefrontRec.owner = some c9user.userId := by
  decide

/-- C9 amended: for every storefront created, the stored record's owner field
equals the creating account's id and its ownerName field equals the email
carried in the account's token (not the display name). -/
theorem c9_owner_denormalized_amended
    (sfs : List StorefrontRec) (users : List UserRec) (tok : TokenPayload)
    (nm ds ct : String) (img : Option String) (fid now : String)
    (hrole : tok.role = "seller") (hn : nm ≠ "") (hd : ds ≠ "") (hc : ct ≠ "") :
    ∃ sf,
      (handleCreateStorefront sfs users (some tok) ⟨some nm, some ds, some ct, img⟩
          false false fid now).storedStorefront = some sf ∧
      sf.owner = tok.userId ∧ sf.ownerName = tok.email := by
  have hfn : (nm == "") = false := by simpa using hn
  have hfd : (ds == "") = false := by simpa using hd
  have hfc : (ct == "") = false := by simpa using hc
  refine ⟨mkStorefront tok ⟨some nm, some ds, some ct, img⟩ fid now, ?_, rfl, rfl⟩
  simp [handleCreateStorefront, falsyStr, hrole, hfn, hfd, hfc]

/-- Witness for the amended C9: the concrete successful run stores owner u1
and ownerName alice@x.io. -/
theorem c9_owner_denormalized_amended_witness :
    ∃ sf,
      (handleCreateStorefront [] [c9user] (some c9tok)
          ⟨some "Shop", some "Nice shop", some "crafts", none⟩
          false false "s1" "t1").storedStorefront = some sf ∧
      sf.owner = c9tok.userId ∧ sf.ownerName = c9tok.email :=
  c9_owner_denormalized_amended [] [c9user] c9tok "Shop" "Nice shop" "crafts"
    none "s1" "t1" (by decide) (by decide) (by decide) (by decide)

/-- C10: the create-review validation does not enforce the data-model
invariant.  The non-numeric rating "abc" passes the range check (JavaScript
NaN comparisons are false) and is stored as a NaN rating, and the non-integer
rating 2.5 passes the check and is stored truncated to 2 — in both cases the
operation answers 201 instead of rejecting the request. -/
theorem c10_rating_validation_bug :
    c10runStr.status = 201 ∧
    c10runStr.storedReview.map ReviewRec.rating = some JVal.nan ∧
    c10runFrac.status = 201 ∧
    c10runFrac.storedReview.map ReviewRec.rating = some (JVal.num 2) := by
  decide

end Faasify
